import Mathlib

/-!
Shallow embedding of `hub-power.c` (hub-power)

The program is one C function, `main`.  It talks to three things outside
itself: `getopt`, `sscanf` and libusb.  The embedding keeps `main`'s control
flow as it is written and makes the outside explicit:

* `Cmdline` is what `getopt` hands to `main`: the option characters it returns
  (each with its `optarg`) and the arguments left at `argv[optind..argc-1]`;
* `World` holds the answer libusb gives to each call `main` can make;
* an `Outcome` is the ordered list of everything `main` does (libusb calls and
  printed lines) together with the value it returns.

Machine integers are `Nat`/`Int` with the truncations of the C assignments
written out (`toUint8`, `toUint16`).

Conventions of the model:

* `char` is signed, so that the `getopt` loop ends when `getopt` returns -1;
* the host is little-endian, so that the fields of the packed
  `struct hub_descriptor` are the values the hub sent;
* a libusb call that returns a status is represented by that status (`int`),
  and the code is followed on whatever value it is.
-/

namespace HubPower

/-! ## Constants -/

/-- Device class code of a hub, `LIBUSB_CLASS_HUB` in libusb.h. -/
def LIBUSB_CLASS_HUB : Nat := 9
/-- Direction bit device-to-host, `LIBUSB_ENDPOINT_IN` in libusb.h. -/
def LIBUSB_ENDPOINT_IN : Nat := 0x80
/-- Request type class, `LIBUSB_REQUEST_TYPE_CLASS` (0x01 << 5) in libusb.h. -/
def LIBUSB_REQUEST_TYPE_CLASS : Nat := 0x01 <<< 5
/-- Recipient device, `LIBUSB_RECIPIENT_DEVICE` in libusb.h. -/
def LIBUSB_RECIPIENT_DEVICE : Nat := 0x00
/-- Recipient other, `LIBUSB_RECIPIENT_OTHER` in libusb.h. -/
def LIBUSB_RECIPIENT_OTHER : Nat := 0x03
/-- Standard request `LIBUSB_REQUEST_CLEAR_FEATURE` in libusb.h. -/
def LIBUSB_REQUEST_CLEAR_FEATURE : Nat := 0x01
/-- Standard request `LIBUSB_REQUEST_SET_FEATURE` in libusb.h. -/
def LIBUSB_REQUEST_SET_FEATURE : Nat := 0x03
/-- Standard request `LIBUSB_REQUEST_GET_DESCRIPTOR` in libusb.h. -/
def LIBUSB_REQUEST_GET_DESCRIPTOR : Nat := 0x06
/-- Hub descriptor type, `LIBUSB_DT_HUB` in libusb.h. -/
def LIBUSB_DT_HUB : Nat := 0x29
/-- Size of the fixed part of a hub descriptor, `LIBUSB_DT_HUB_NONVAR_SIZE` in libusb.h. -/
def LIBUSB_DT_HUB_NONVAR_SIZE : Int := 7

/-- The `#define CTRL_TIMEOUT 1000` of hub-power.c. -/
def CTRL_TIMEOUT : Nat := 1000
/-- The `#define USB_RT_HUB` of hub-power.c. -/
def USB_RT_HUB : Nat := LIBUSB_REQUEST_TYPE_CLASS ||| LIBUSB_RECIPIENT_DEVICE
/-- The `#define USB_RT_PORT` of hub-power.c. -/
def USB_RT_PORT : Nat := LIBUSB_REQUEST_TYPE_CLASS ||| LIBUSB_RECIPIENT_OTHER
/-- The `#define USB_PORT_FEAT_POWER 8` of hub-power.c. -/
def USB_PORT_FEAT_POWER : Nat := 8

/-- The `enum libusb_error` of libusb.h (the error codes, all negative). -/
inductive libusb_error where
  | LIBUSB_ERROR_IO
  | LIBUSB_ERROR_INVALID_PARAM
  | LIBUSB_ERROR_ACCESS
  | LIBUSB_ERROR_NO_DEVICE
  | LIBUSB_ERROR_NOT_FOUND
  | LIBUSB_ERROR_BUSY
  | LIBUSB_ERROR_TIMEOUT
  | LIBUSB_ERROR_OVERFLOW
  | LIBUSB_ERROR_PIPE
  | LIBUSB_ERROR_INTERRUPTED
  | LIBUSB_ERROR_NO_MEM
  | LIBUSB_ERROR_NOT_SUPPORTED
  | LIBUSB_ERROR_OTHER
  deriving DecidableEq, Repr

/-- Numeric value of an error code, as in libusb.h. -/
def libusb_error.toInt : libusb_error → Int
  | libusb_error.LIBUSB_ERROR_IO => -1
  | libusb_error.LIBUSB_ERROR_INVALID_PARAM => -2
  | libusb_error.LIBUSB_ERROR_ACCESS => -3
  | libusb_error.LIBUSB_ERROR_NO_DEVICE => -4
  | libusb_error.LIBUSB_ERROR_NOT_FOUND => -5
  | libusb_error.LIBUSB_ERROR_BUSY => -6
  | libusb_error.LIBUSB_ERROR_TIMEOUT => -7
  | libusb_error.LIBUSB_ERROR_OVERFLOW => -8
  | libusb_error.LIBUSB_ERROR_PIPE => -9
  | libusb_error.LIBUSB_ERROR_INTERRUPTED => -10
  | libusb_error.LIBUSB_ERROR_NO_MEM => -11
  | libusb_error.LIBUSB_ERROR_NOT_SUPPORTED => -12
  | libusb_error.LIBUSB_ERROR_OTHER => -99

/-! ## Data model -/

/-- The packed `struct hub_descriptor` of hub-power.c, field by field
(`sizeof` is 7: five `uint8_t` and one `uint16_t`, no padding). -/
structure hub_descriptor where
  bDescLength : Nat
  bDescriptorType : Nat
  bNbrPorts : Nat
  wHubCharacteristics : Nat
  bPwrOn2PwrGood : Nat
  bHubContrCurrent : Nat
  deriving DecidableEq, Repr

/-- The `sizeof(hub_desc)` passed as `wLength` of the descriptor read. -/
def sizeof_hub_desc : Nat := 7

/-- One entry of the device list, with the answer libusb gives to every call
`main` can make on it.  The `*_ret` fields are the `int` results of the calls;
`idVendor` and `idProduct` are the values after `libusb_le16_to_cpu`. -/
structure Device where
  /-- result of `libusb_get_device_descriptor` -/
  descriptor_ret : Int
  bDeviceClass : Nat
  idVendor : Nat
  idProduct : Nat
  /-- result of `libusb_get_bus_number` -/
  bus_number : Nat
  /-- result of `libusb_get_device_address` -/
  device_address : Nat
  /-- result of `libusb_open` -/
  open_ret : Int
  /-- result of `libusb_get_active_config_descriptor` -/
  config_ret : Int
  /-- field `bNumInterfaces` of the active configuration -/
  bNumInterfaces : Nat
  /-- result of the hub descriptor control transfer -/
  hub_desc_ret : Int
  /-- contents of the buffer after the hub descriptor control transfer -/
  hub_desc : hub_descriptor
  /-- result of the port power control transfer -/
  power_ret : Int
  deriving DecidableEq, Repr

/-- What `libusb_get_device_list` returns: the list (and `ndev` is its
length), or an error code (and `ndev` is that negative number). -/
inductive DeviceList where
  | devices (list : List Device)
  | error (code : libusb_error)
  deriving DecidableEq, Repr

/-- The USB subsystem as `main` sees it. -/
structure World where
  /-- result of `libusb_init` -/
  init_ret : Int
  /-- result of `libusb_get_device_list` -/
  device_list : DeviceList
  deriving DecidableEq, Repr

/-- What `main` receives from the `getopt` loop: the successive return values
of `getopt` before it returns -1, each with the `optarg` it set, and the
arguments `argv[optind], ..., argv[argc-1]` it left. -/
structure Cmdline where
  opts : List (Char × String)
  rest : List String
  deriving DecidableEq, Repr

/-- The four `match_*` variables of `main`. -/
structure Criteria where
  match_bus : Nat
  match_dev : Nat
  match_vid : Nat
  match_pid : Nat
  deriving DecidableEq, Repr

/-- The variables of `main` that are set from the command line. -/
structure Args where
  crit : Criteria
  port : Nat
  req : Nat
  deriving DecidableEq, Repr

/-- Everything `main` does that is visible outside it, in order. -/
inductive Event where
  | print_usage
  | fprintf_stderr (msg : String)
  | libusb_init
  | libusb_get_device_list
  | libusb_get_device_descriptor (i : Nat)
  | libusb_get_bus_number (i : Nat)
  | libusb_get_device_address (i : Nat)
  | libusb_open (i : Nat)
  | libusb_free_device_list
  | libusb_get_device
  | libusb_get_active_config_descriptor
  | libusb_free_config_descriptor
  | libusb_control_transfer (bmRequestType bRequest wValue wIndex wLength timeout : Nat)
  | libusb_close
  | libusb_exit
  deriving DecidableEq, Repr

/-- A run of `main`: what it did and what it returned. -/
structure Outcome where
  trace : List Event
  status : Int
  deriving DecidableEq, Repr

/-- The two labels `main` jumps to. -/
inductive Label where
  | fn_exit
  | fn_fail
  deriving DecidableEq, Repr

/-! ## Argument parsing -/

/-- Assignment of an `int` to a `uint8_t`. -/
def toUint8 (v : Int) : Nat := (v % 2 ^ 8).toNat

/-- Assignment of an `int` to a `uint16_t`. -/
def toUint16 (v : Int) : Nat := (v % 2 ^ 16).toNat

/-- The white-space characters of `isspace` in the C locale. -/
def isspace (c : Char) : Bool :=
  c = ' ' || c = Char.ofNat 9 || c = Char.ofNat 10 || c = Char.ofNat 11 ||
  c = Char.ofNat 12 || c = Char.ofNat 13

/-- Value of a hexadecimal digit, if the character is one. -/
def hexDigit (c : Char) : Option Nat :=
  if '0' ≤ c ∧ c ≤ '9' then some (c.toNat - '0'.toNat)
  else if 'a' ≤ c ∧ c ≤ 'f' then some (c.toNat - 'a'.toNat + 10)
  else if 'A' ≤ c ∧ c ≤ 'F' then some (c.toNat - 'A'.toNat + 10)
  else none

/-- Value of a digit in the given base, if the character is one. -/
def digitIn (base : Nat) (c : Char) : Option Nat :=
  match hexDigit c with
  | some d => if d < base then some d else none
  | none => none

/-- Reads the longest run of digits at the head of the input; `acc` is the
value read so far and `seen` tells whether a digit was read. -/
def readDigits (base : Nat) : List Char → Nat → Bool → Nat × Bool
  | [], acc, seen => (acc, seen)
  | c :: cs, acc, seen =>
    match digitIn base c with
    | some d => readDigits base cs (acc * base + d) true
    | none => (acc, seen)

/-- An optional sign at the head of the input. -/
def readSign : List Char → Bool × List Char
  | '-' :: cs => (true, cs)
  | '+' :: cs => (false, cs)
  | cs => (false, cs)

/-- The conversion `%d` of `sscanf`: white space, an optional sign, decimal
digits.  `none` is a matching failure (nothing is stored).  A value that does
not fit an `int` is left undefined by ISO C; the model keeps the mathematical
value, which the assignments to `uint8_t`/`uint16_t` then reduce. -/
def scan_d (s : List Char) : Option Int :=
  let (neg, cs) := readSign (s.dropWhile isspace)
  let (v, seen) := readDigits 10 cs 0 false
  if seen then some (if neg then -(v : Int) else (v : Int)) else none

/-- The conversion `%x` of `sscanf`: white space, an optional sign, an
optional `0x`/`0X`, hexadecimal digits.  `none` is a matching failure. -/
def scan_x (s : List Char) : Option Int :=
  let (neg, cs) := readSign (s.dropWhile isspace)
  let body := match cs with
    | '0' :: 'x' :: t => t
    | '0' :: 'X' :: t => t
    | cs => cs
  let (v, seen) := readDigits 16 body 0 false
  if seen then some (if neg then -(v : Int) else (v : Int)) else none

/-- The call `sscanf(s, "%d", &val)` with `val` as it was before: the new
value of `val`. -/
def sscanf_d (s : String) (val : Int) : Int :=
  match scan_d s.data with
  | some v => v
  | none => val

/-- The call `sscanf(s, "0x%x", &val)`: the literal characters `0x`, then `%x`.
Returns the result of the call (1 when the conversion was done) and the new
value of `val`. -/
def sscanf_0x_x (s : String) (val : Int) : Int × Int :=
  match s.data with
  | '0' :: 'x' :: t =>
    match scan_x t with
    | some v => (1, v)
    | none => (0, val)
  | _ => (0, val)

/-- The call `sscanf(s, "%x", &val)`: the new value of `val`. -/
def sscanf_x (s : String) (val : Int) : Int :=
  match scan_x s.data with
  | some v => v
  | none => val

/-- The two-step hexadecimal read of the `-v` and `-p` cases. -/
def scanHex (optarg : String) (val : Int) : Int :=
  let r := sscanf_0x_x optarg val
  if r.1 ≠ 1 then sscanf_x optarg r.2 else r.2

/-- The `while ((c = getopt(...)) != -1)` loop of `main`.  `none` stands for
the two `print_usage(); return 1;` exits (`-h` and the default case). -/
def getoptLoop : List (Char × String) → Criteria → Option Criteria
  | [], m => some m
  | (c, optarg) :: more, m =>
    if c = 'b' then getoptLoop more { m with match_bus := toUint8 (sscanf_d optarg 0) }
    else if c = 'd' then getoptLoop more { m with match_dev := toUint8 (sscanf_d optarg 0) }
    else if c = 'v' then getoptLoop more { m with match_vid := toUint16 (scanHex optarg 0) }
    else if c = 'p' then getoptLoop more { m with match_pid := toUint16 (scanHex optarg 0) }
    else none

/-- The `switch (argv[optind+1][0])` of `main`: the request, or `none` for
the default case. -/
def parseAction (s : String) : Option Nat :=
  match s.data with
  | '0' :: _ => some LIBUSB_REQUEST_CLEAR_FEATURE
  | '1' :: _ => some LIBUSB_REQUEST_SET_FEATURE
  | _ => none

/-- Lines 51-113 of `main`: everything before `libusb_init`.  `none` stands
for `print_usage(); return 1;`. -/
def parseArgs (c : Cmdline) : Option Args :=
  match getoptLoop c.opts ⟨0, 0, 0, 0⟩ with
  | none => none
  | some m =>
    match c.rest with
    | [port_num, action] =>
      match parseAction action with
      | some req => some ⟨m, toUint16 (sscanf_d port_num 0), req⟩
      | none => none
    | _ => none

/-! ## The scan loop -/

/-- The `int` value of a C comparison. -/
def b2i (b : Bool) : Nat := if b then 1 else 0

/-- The variable `found` of the scan loop after its four updates
(lines 139-147). -/
def found (m : Criteria) (d : Device) : Nat :=
  let found := b2i (d.bDeviceClass == LIBUSB_CLASS_HUB)
  let found := if m.match_bus ≠ 0 then found &&& b2i (m.match_bus == d.bus_number) else found
  let found := if m.match_dev ≠ 0 then found &&& b2i (m.match_dev == d.device_address) else found
  let found := if m.match_vid ≠ 0 then found &&& b2i (m.match_vid == d.idVendor) else found
  let found := if m.match_pid ≠ 0 then found &&& b2i (m.match_pid == d.idProduct) else found
  found

/-- The libusb calls of one iteration before `found` is tested. -/
def probeEvents (m : Criteria) (i : Nat) : List Event :=
  [Event.libusb_get_device_descriptor i]
    ++ (if m.match_bus ≠ 0 then [Event.libusb_get_bus_number i] else [])
    ++ (if m.match_dev ≠ 0 then [Event.libusb_get_device_address i] else [])

/-- The `for (i = 0; i < ndev; i++)` loop of `main` from index `i` on, over
the devices `list[i], list[i+1], ...`: what it does and the value of `handle`
when it ends (`none` is the null handle). -/
def scanLoop (m : Criteria) : List Device → Nat → List Event × Option Device
  | [], _ => ([], none)
  | d :: more, i =>
    if d.descriptor_ret ≠ 0 then ([Event.libusb_get_device_descriptor i], none)
    else if found m d ≠ 0 then
      if d.open_ret ≠ 0 then
        (probeEvents m i ++
          [Event.libusb_open i, Event.fprintf_stderr "could not open device\n"], none)
      else (probeEvents m i ++ [Event.libusb_open i], some d)
    else
      let r := scanLoop m more (i + 1)
      (probeEvents m i ++ r.1, r.2)

/-! ## The hub session -/

/-- The test `(port < 1) || (port > hub_desc.bNbrPorts)` of line 186. -/
def port_invalid (port : Nat) (hub_desc : hub_descriptor) : Bool :=
  port < 1 || port > hub_desc.bNbrPorts

/-- The `switch (hub_desc.wHubCharacteristics & 0x3)` of line 192: `true` for
the cases that `break`, `false` for the default case. -/
def power_switching (hub_desc : hub_descriptor) : Bool :=
  match hub_desc.wHubCharacteristics &&& 0x3 with
  | 0x0 => true
  | 0x1 => true
  | _ => false

/-- The control transfer of lines 177-183. -/
def getHubDescriptor : Event :=
  Event.libusb_control_transfer (LIBUSB_ENDPOINT_IN ||| USB_RT_HUB)
    LIBUSB_REQUEST_GET_DESCRIPTOR (LIBUSB_DT_HUB <<< 8) 0 sizeof_hub_desc CTRL_TIMEOUT

/-- The control transfer of lines 202-207. -/
def portPower (a : Args) : Event :=
  Event.libusb_control_transfer USB_RT_PORT a.req USB_PORT_FEAT_POWER a.port 0 CTRL_TIMEOUT

/-- The body of `if (handle) { ... }`, lines 162-209, for the opened device
`d`: what it does and the label it leaves to (falling out of the block
reaches `fn_exit`). -/
def session (a : Args) (d : Device) : List Event × Label :=
  if d.config_ret ≠ 0 then
    ([Event.libusb_get_device, Event.libusb_get_active_config_descriptor], Label.fn_fail)
  else if d.bNumInterfaces ≠ 1 then
    ([Event.libusb_get_device, Event.libusb_get_active_config_descriptor,
      Event.fprintf_stderr "multiple interfaces found\n",
      Event.libusb_free_config_descriptor], Label.fn_exit)
  else
    let read := [Event.libusb_get_device, Event.libusb_get_active_config_descriptor,
      Event.libusb_free_config_descriptor, getHubDescriptor]
    if d.hub_desc_ret < LIBUSB_DT_HUB_NONVAR_SIZE then (read, Label.fn_fail)
    else if port_invalid a.port d.hub_desc then
      (read ++ [Event.fprintf_stderr "invalid port number\n"], Label.fn_exit)
    else if power_switching d.hub_desc then
      if d.power_ret < 0 then (read ++ [portPower a], Label.fn_fail)
      else (read ++ [portPower a], Label.fn_exit)
    else (read ++ [Event.fprintf_stderr "power switching not supported\n"], Label.fn_exit)

/-- The code at the two labels, lines 211-222, with the status returned. -/
def teardown (handle : Option Device) : Label → List Event × Int
  | Label.fn_exit =>
    ((if handle.isSome then [Event.libusb_close] else []) ++ [Event.libusb_exit], 0)
  | Label.fn_fail =>
    ([Event.fprintf_stderr "libusb error\n"]
      ++ (if handle.isSome then [Event.libusb_close] else []) ++ [Event.libusb_exit], 2)

/-- Lines 123-159: the block that lists the devices and scans them.  The
label is `some fn_fail` when the block jumps out (`ndev == LIBUSB_ERROR_NO_MEM`).
For any other error code `ndev` is negative, the loop body does not run and
`libusb_free_device_list` is reached. -/
def enumerate (a : Args) (w : World) : List Event × Option Device × Option Label :=
  match w.device_list with
  | DeviceList.error code =>
    if code.toInt = libusb_error.LIBUSB_ERROR_NO_MEM.toInt then
      ([Event.libusb_get_device_list], none, some Label.fn_fail)
    else ([Event.libusb_get_device_list, Event.libusb_free_device_list], none, none)
  | DeviceList.devices list =>
    let r := scanLoop a.crit list 0
    ([Event.libusb_get_device_list] ++ r.1 ++ [Event.libusb_free_device_list], r.2, none)

/-- The value of `handle` after the scan (`none` is the null handle). -/
def opened (a : Args) (w : World) : Option Device :=
  (enumerate a w).2.1

/-- Lines 116-222 of `main`: the run once the arguments are parsed. -/
def run (a : Args) (w : World) : Outcome :=
  if w.init_ret ≠ 0 then
    ⟨[Event.libusb_init, Event.fprintf_stderr "libusb init failed\n"], -1⟩
  else
    match enumerate a w with
    | (evs, handle, some label) =>
      let t := teardown handle label
      ⟨[Event.libusb_init] ++ evs ++ t.1, t.2⟩
    | (evs, none, none) =>
      let t := teardown none Label.fn_exit
      ⟨[Event.libusb_init] ++ evs ++ t.1, t.2⟩
    | (evs, some d, none) =>
      let s := session a d
      let t := teardown (some d) s.2
      ⟨[Event.libusb_init] ++ evs ++ s.1 ++ t.1, t.2⟩

/-- The function `main` of hub-power.c. -/
def main (c : Cmdline) (w : World) : Outcome :=
  match parseArgs c with
  | none => ⟨[Event.print_usage], 1⟩
  | some a => run a w

/-! ## Vocabulary of the statements -/

/-- A control transfer addressed to a port (request type class, recipient
other, direction host-to-device): the set/clear port power transfer. -/
def Event.isPortTransfer : Event → Bool
  | Event.libusb_control_transfer bmRequestType _ _ _ _ _ => bmRequestType == USB_RT_PORT
  | _ => false

/-- A call of `libusb_open`. -/
def Event.isOpen : Event → Bool
  | Event.libusb_open _ => true
  | _ => false

/-- A line written to the error stream. -/
def Event.isStderr : Event → Bool
  | Event.fprintf_stderr _ => true
  | _ => false

/-- A call into libusb. -/
def Event.isUsb : Event → Bool
  | Event.print_usage => false
  | Event.fprintf_stderr _ => false
  | _ => true

/-- The events one iteration of the scan loop can produce. -/
def Event.isScanStep : Event → Bool
  | Event.libusb_get_device_descriptor _ => true
  | Event.libusb_get_bus_number _ => true
  | Event.libusb_get_device_address _ => true
  | Event.libusb_open _ => true
  | Event.fprintf_stderr msg => msg == "could not open device\n"
  | _ => false

/-- A run that ends with status 0 and without a port power transfer. -/
def Graceful (o : Outcome) : Prop :=
  o.status = 0 ∧ o.trace.filter Event.isPortTransfer = []

/-- The devices the scan loop can reach: those before the first one whose
descriptor read fails. -/
def scanned (list : List Device) : List Device :=
  list.takeWhile (fun d => d.descriptor_ret == 0)

/-- A four-port hub with per-port power switching that answers every call. -/
def sampleHub : Device :=
  { descriptor_ret := 0, bDeviceClass := 9, idVendor := 0x05e3, idProduct := 0x0608,
    bus_number := 1, device_address := 2, open_ret := 0, config_ret := 0,
    bNumInterfaces := 1, hub_desc_ret := 7,
    hub_desc := ⟨9, 0x29, 4, 0x0009, 50, 100⟩, power_ret := 0 }

/-- A world with the sample hub alone on the bus. -/
def sampleWorld : World := ⟨0, DeviceList.devices [sampleHub]⟩

/-- The command line `hub-power 3 1`. -/
def sampleCmd : Cmdline := ⟨[], ["3", "1"]⟩

/-- The variables `main` sets from `hub-power 3 1`. -/
def sampleArgs : Args := ⟨⟨0, 0, 0, 0⟩, 3, 3⟩

/-- The command line `hub-power 99 1` and the variables set from it. -/
def cmd99 : Cmdline := ⟨[], ["99", "1"]⟩

/-- The variables `main` sets from `hub-power 99 1`. -/
def args99 : Args := ⟨⟨0, 0, 0, 0⟩, 99, 3⟩

/-- The command line `hub-power 5 1`: one port beyond the sample hub. -/
def cmd5 : Cmdline := ⟨[], ["5", "1"]⟩

/-- The variables `main` sets from `hub-power 5 1`. -/
def args5 : Args := ⟨⟨0, 0, 0, 0⟩, 5, 3⟩

/-- A device that is not a hub. -/
def sampleMouse : Device := { sampleHub with bDeviceClass := 3 }

/-- A hub that cannot be opened. -/
def lockedHub : Device := { sampleHub with open_ret := -3 }

/-- A hub whose active configuration has two interfaces. -/
def compositeHub : Device := { sampleHub with bNumInterfaces := 2 }

/-- A hub without power switching (mode bits 2). -/
def fixedHub : Device := { sampleHub with hub_desc := ⟨9, 0x29, 4, 0x0002, 50, 100⟩ }

/-- A hub that answers the descriptor read with 3 bytes. -/
def shortHub : Device := { sampleHub with hub_desc_ret := 3 }

/-- A hub that refuses the port power transfer. -/
def stalledHub : Device := { sampleHub with power_ret := -9 }

/-- A device whose descriptor cannot be read. -/
def brokenDevice : Device := { sampleHub with descriptor_ret := -1 }

/-- A bus with a mouse, two hubs, an unreadable device and one more hub. -/
def busList : List Device := [sampleMouse, sampleHub, fixedHub, brokenDevice, sampleHub]

/-- The world of `busList`. -/
def busWorld : World := ⟨0, DeviceList.devices busList⟩

/-- A world with the given device alone on the bus. -/
def worldOf (d : Device) : World := ⟨0, DeviceList.devices [d]⟩

/-! ## Lemmas on the scan loop -/

theorem probeEvents_steps (m : Criteria) (i : Nat) :
    ∀ ev ∈ probeEvents m i, ev.isScanStep = true ∧ ev.isOpen = false := by
  intro ev hev
  unfold probeEvents at hev
  by_cases hb : m.match_bus = 0 <;> by_cases hd : m.match_dev = 0 <;>
    simp [hb, hd] at hev <;> rcases hev with h | h | h <;>
    simp_all [Event.isScanStep, Event.isOpen]

theorem probeEvents_filter_isOpen (m : Criteria) (i : Nat) :
    (probeEvents m i).filter Event.isOpen = [] := by
  rw [List.filter_eq_nil_iff]
  intro ev hev
  simp [(probeEvents_steps m i ev hev).2]

theorem scanLoop_steps (m : Criteria) (list : List Device) :
    ∀ i, ∀ ev ∈ (scanLoop m list i).1, ev.isScanStep = true := by
  induction list with
  | nil => intro i ev hev; simp [scanLoop] at hev
  | cons d more ih =>
    intro i ev hev
    unfold scanLoop at hev
    split_ifs at hev with h1 h2 h3
    · simp at hev; subst hev; rfl
    · simp only [List.mem_append, List.mem_cons, List.mem_singleton] at hev
      rcases hev with h | h | h | h
      · exact (probeEvents_steps m i ev h).1
      · subst h; rfl
      · subst h; rfl
      · simp at h
    · simp only [List.mem_append, List.mem_singleton] at hev
      rcases hev with h | h
      · exact (probeEvents_steps m i ev h).1
      · subst h; rfl
    · simp only [List.mem_append] at hev
      rcases hev with h | h
      · exact (probeEvents_steps m i ev h).1
      · exact ih (i + 1) ev h

theorem scanLoop_opens (m : Criteria) (list : List Device) :
    ∀ i, (scanLoop m list i).1.filter Event.isOpen =
      (((scanned list).findIdx? (fun d => found m d != 0) i).toList).map Event.libusb_open := by
  induction list with
  | nil => intro i; simp [scanLoop, scanned]
  | cons d more ih =>
    intro i
    unfold scanLoop
    by_cases h1 : d.descriptor_ret = 0
    · by_cases h2 : found m d = 0
      · have h := ih (i + 1)
        simp only [scanned] at h
        simp only [scanned, List.takeWhile_cons, h1, h2, ne_eq, not_true_eq_false, if_false,
          beq_self_eq_true, if_true, List.filter_append, probeEvents_filter_isOpen,
          List.nil_append, h, List.findIdx?_cons, bne_self_eq_false, Bool.false_eq_true]
      · by_cases h3 : d.open_ret = 0 <;>
          simp [scanned, List.takeWhile_cons, h1, h2, h3, probeEvents_filter_isOpen,
            Event.isOpen]
    · simp [scanned, List.takeWhile_cons, h1, Event.isOpen]

theorem scanLoop_handle (m : Criteria) (list : List Device) :
    ∀ i, (scanLoop m list i).2 =
      ((scanned list).find? (fun d => found m d != 0)).filter (fun d => d.open_ret == 0) := by
  induction list with
  | nil => intro i; simp [scanLoop, scanned, Option.filter]
  | cons d more ih =>
    intro i
    unfold scanLoop
    by_cases h1 : d.descriptor_ret = 0
    · by_cases h2 : found m d = 0
      · have h := ih (i + 1)
        simp only [scanned] at h
        simp [scanned, List.takeWhile_cons, h1, h2, h]
      · by_cases h3 : d.open_ret = 0 <;>
          simp [scanned, List.takeWhile_cons, h1, h2, h3, Option.filter]
    · simp [scanned, List.takeWhile_cons, h1, Option.filter]

/-! ## Lemmas on the run -/

theorem main_of_parseArgs (c : Cmdline) (w : World) (a : Args) (h : parseArgs c = some a) :
    main c w = run a w := by
  simp [main, h]

theorem main_of_parseArgs_none (c : Cmdline) (w : World) (h : parseArgs c = none) :
    main c w = ⟨[Event.print_usage], 1⟩ := by
  simp [main, h]

theorem run_init_failed (a : Args) (w : World) (h : w.init_ret ≠ 0) :
    run a w = ⟨[Event.libusb_init, Event.fprintf_stderr "libusb init failed\n"], -1⟩ := by
  simp [run, h]

theorem run_no_mem (a : Args) (w : World) (h0 : w.init_ret = 0)
    (hl : w.device_list = DeviceList.error libusb_error.LIBUSB_ERROR_NO_MEM) :
    run a w = ⟨[Event.libusb_init, Event.libusb_get_device_list,
      Event.fprintf_stderr "libusb error\n", Event.libusb_exit], 2⟩ := by
  simp [run, h0, enumerate, hl, teardown]

theorem run_list_error (a : Args) (w : World) (code : libusb_error) (h0 : w.init_ret = 0)
    (hl : w.device_list = DeviceList.error code)
    (hc : code ≠ libusb_error.LIBUSB_ERROR_NO_MEM) :
    run a w = ⟨[Event.libusb_init, Event.libusb_get_device_list,
      Event.libusb_free_device_list, Event.libusb_exit], 0⟩ := by
  have : code.toInt ≠ libusb_error.LIBUSB_ERROR_NO_MEM.toInt := by
    cases code <;> simp_all [libusb_error.toInt]
  simp [run, h0, enumerate, hl, teardown, this]

theorem opened_devices (a : Args) (w : World) (list : List Device)
    (hl : w.device_list = DeviceList.devices list) :
    opened a w = (scanLoop a.crit list 0).2 := by
  simp [opened, enumerate, hl]

theorem opened_error (a : Args) (w : World) (code : libusb_error)
    (hl : w.device_list = DeviceList.error code) :
    opened a w = none := by
  unfold opened enumerate
  rw [hl]
  dsimp only
  split_ifs <;> rfl

theorem run_not_opened (a : Args) (w : World) (list : List Device) (h0 : w.init_ret = 0)
    (hl : w.device_list = DeviceList.devices list) (hn : opened a w = none) :
    run a w = ⟨[Event.libusb_init, Event.libusb_get_device_list] ++ (scanLoop a.crit list 0).1
      ++ [Event.libusb_free_device_list, Event.libusb_exit], 0⟩ := by
  rw [opened_devices a w list hl] at hn
  simp [run, h0, enumerate, hl, teardown, hn]

theorem run_opened (a : Args) (w : World) (list : List Device) (d : Device)
    (h0 : w.init_ret = 0) (hl : w.device_list = DeviceList.devices list)
    (ho : opened a w = some d) :
    run a w = ⟨[Event.libusb_init, Event.libusb_get_device_list] ++ (scanLoop a.crit list 0).1
      ++ [Event.libusb_free_device_list] ++ (session a d).1
      ++ (teardown (some d) (session a d).2).1, (teardown (some d) (session a d).2).2⟩ := by
  rw [opened_devices a w list hl] at ho
  simp [run, h0, enumerate, hl, ho]

theorem opened_is_devices (a : Args) (w : World) (d : Device) (ho : opened a w = some d) :
    ∃ list, w.device_list = DeviceList.devices list := by
  cases hl : w.device_list with
  | devices list => exact ⟨list, rfl⟩
  | error code => rw [opened_error a w code hl] at ho; cases ho

theorem session_filter_isOpen (a : Args) (d : Device) :
    (session a d).1.filter Event.isOpen = [] := by
  unfold session
  split_ifs <;> simp [Event.isOpen, getHubDescriptor, portPower]

theorem teardown_filter_isOpen (handle : Option Device) (l : Label) :
    (teardown handle l).1.filter Event.isOpen = [] := by
  cases l <;> cases handle <;> simp [teardown, Event.isOpen]

theorem scanLoop_not_mem (m : Criteria) (list : List Device) (i : Nat) (ev : Event)
    (h : ev.isScanStep = false) : ev ∉ (scanLoop m list i).1 := by
  intro hmem
  rw [scanLoop_steps m list i ev hmem] at h
  cases h

theorem scanLoop_filter (m : Criteria) (list : List Device) (i : Nat) (p : Event → Bool)
    (h : ∀ ev, ev.isScanStep = true → p ev = false) :
    (scanLoop m list i).1.filter p = [] := by
  rw [List.filter_eq_nil_iff]
  intro ev hev
  simp [h ev (scanLoop_steps m list i ev hev)]

theorem scanLoop_filter_isPortTransfer (m : Criteria) (list : List Device) (i : Nat) :
    (scanLoop m list i).1.filter Event.isPortTransfer = [] :=
  scanLoop_filter m list i _ (by intro ev h; cases ev <;> simp_all [Event.isScanStep, Event.isPortTransfer])

theorem getHubDescriptor_eq :
    getHubDescriptor = Event.libusb_control_transfer 0xA0 6 0x2900 0 7 1000 := by
  decide

theorem portPower_eq (a : Args) :
    portPower a = Event.libusb_control_transfer 0x23 a.req 8 a.port 0 1000 := by
  unfold portPower
  have h1 : USB_RT_PORT = 0x23 := by decide
  have h2 : USB_PORT_FEAT_POWER = 8 := rfl
  have h3 : CTRL_TIMEOUT = 1000 := rfl
  rw [h1, h2, h3]

theorem USB_RT_PORT_eq : USB_RT_PORT = 0x23 := by decide

theorem power_switching_iff (hd : hub_descriptor) :
    power_switching hd = true ↔
      (hd.wHubCharacteristics &&& 0x3 = 0 ∨ hd.wHubCharacteristics &&& 0x3 = 1) := by
  unfold power_switching
  split <;> simp_all

theorem port_invalid_iff (port : Nat) (hd : hub_descriptor) :
    port_invalid port hd = false ↔ 1 ≤ port ∧ port ≤ hd.bNbrPorts := by
  unfold port_invalid
  simp only [Bool.or_eq_false_iff, decide_eq_false_iff_not]
  omega

theorem graceful_not_opened (a : Args) (w : World) (list : List Device)
    (h0 : w.init_ret = 0) (hl : w.device_list = DeviceList.devices list)
    (hn : opened a w = none) : Graceful (run a w) := by
  rw [run_not_opened a w list h0 hl hn]
  exact ⟨rfl, by simp [scanLoop_filter_isPortTransfer, Event.isPortTransfer]⟩

theorem graceful_interfaces (a : Args) (w : World) (d : Device)
    (h0 : w.init_ret = 0) (ho : opened a w = some d) (hcfg : d.config_ret = 0)
    (hif : d.bNumInterfaces ≠ 1) : Graceful (run a w) := by
  obtain ⟨list, hl⟩ := opened_is_devices a w d ho
  rw [run_opened a w list d h0 hl ho]
  exact ⟨by simp [session, hcfg, hif, teardown],
    by simp [session, hcfg, hif, teardown, scanLoop_filter_isPortTransfer,
      Event.isPortTransfer]⟩

theorem graceful_port (a : Args) (w : World) (d : Device)
    (h0 : w.init_ret = 0) (ho : opened a w = some d) (hcfg : d.config_ret = 0)
    (hif : d.bNumInterfaces = 1) (hread : LIBUSB_DT_HUB_NONVAR_SIZE ≤ d.hub_desc_ret)
    (hport : ¬ (1 ≤ a.port ∧ a.port ≤ d.hub_desc.bNbrPorts)) : Graceful (run a w) := by
  obtain ⟨list, hl⟩ := opened_is_devices a w d ho
  have hread' : ¬ d.hub_desc_ret < LIBUSB_DT_HUB_NONVAR_SIZE := by omega
  have hv : port_invalid a.port d.hub_desc = true := by
    rw [← port_invalid_iff] at hport
    simpa using hport
  rw [run_opened a w list d h0 hl ho]
  exact ⟨by simp [session, hcfg, hif, hread', hv, teardown],
    by simp [session, hcfg, hif, hread', hv, teardown, scanLoop_filter_isPortTransfer,
      getHubDescriptor_eq, USB_RT_PORT_eq, Event.isPortTransfer]⟩

theorem graceful_unsupported (a : Args) (w : World) (d : Device)
    (h0 : w.init_ret = 0) (ho : opened a w = some d) (hcfg : d.config_ret = 0)
    (hif : d.bNumInterfaces = 1) (hread : LIBUSB_DT_HUB_NONVAR_SIZE ≤ d.hub_desc_ret)
    (hport : 1 ≤ a.port ∧ a.port ≤ d.hub_desc.bNbrPorts)
    (hs : ¬ power_switching d.hub_desc = true) : Graceful (run a w) := by
  obtain ⟨list, hl⟩ := opened_is_devices a w d ho
  have hread' : ¬ d.hub_desc_ret < LIBUSB_DT_HUB_NONVAR_SIZE := by omega
  have hv : port_invalid a.port d.hub_desc = false := (port_invalid_iff _ _).2 hport
  rw [run_opened a w list d h0 hl ho]
  exact ⟨by simp [session, hcfg, hif, hread', hv, hs, teardown],
    by simp [session, hcfg, hif, hread', hv, hs, teardown, scanLoop_filter_isPortTransfer,
      getHubDescriptor_eq, USB_RT_PORT_eq, Event.isPortTransfer]⟩

theorem scanLoop_count (m : Criteria) (list : List Device) (i : Nat) (ev : Event)
    (h : ev.isScanStep = false) : (scanLoop m list i).1.count ev = 0 :=
  List.count_eq_zero.2 (scanLoop_not_mem m list i ev h)

theorem session_count (a : Args) (d : Device) :
    (session a d).1.count Event.libusb_close = 0 ∧
    (session a d).1.count Event.libusb_exit = 0 := by
  unfold session
  split_ifs <;> simp [getHubDescriptor_eq, portPower_eq]

theorem teardown_some (d : Device) (l : Label) :
    ∃ pre, (teardown (some d) l).1 = pre ++ [Event.libusb_close, Event.libusb_exit] ∧
      pre.count Event.libusb_close = 0 ∧ pre.count Event.libusb_exit = 0 := by
  cases l
  · exact ⟨[], by simp [teardown]⟩
  · exact ⟨[Event.fprintf_stderr "libusb error\n"], by simp [teardown]⟩

/-! ## The match predicate -/

/-- C1: the flag `found` computed by the scan loop for a device is non-zero
(true) exactly when the device class is `LIBUSB_CLASS_HUB` and every one of
the four criteria that is non-zero equals the corresponding field of the
device; a criterion equal to 0 filters nothing. -/
theorem found_iff_matches (m : Criteria) (d : Device) :
    found m d ≠ 0 ↔
      (d.bDeviceClass = LIBUSB_CLASS_HUB ∧
       (m.match_bus ≠ 0 → m.match_bus = d.bus_number) ∧
       (m.match_dev ≠ 0 → m.match_dev = d.device_address) ∧
       (m.match_vid ≠ 0 → m.match_vid = d.idVendor) ∧
       (m.match_pid ≠ 0 → m.match_pid = d.idProduct)) := by
  unfold found b2i
  by_cases hc : d.bDeviceClass = LIBUSB_CLASS_HUB <;>
  by_cases hb0 : m.match_bus = 0 <;> by_cases hb : m.match_bus = d.bus_number <;>
  by_cases hd0 : m.match_dev = 0 <;> by_cases hd : m.match_dev = d.device_address <;>
  by_cases hv0 : m.match_vid = 0 <;> by_cases hv : m.match_vid = d.idVendor <;>
  by_cases hp0 : m.match_pid = 0 <;> by_cases hp : m.match_pid = d.idProduct <;>
  simp [hc, hb0, hb, hd0, hd, hv0, hv, hp0, hp]

/-! ## First match wins -/

/-- C2: in every run at most one `libusb_open` is attempted.  When the device
list is obtained, the opens attempted are exactly: the first device, in list
order, whose `found` flag is set among the devices that precede the first
failing descriptor read, or no open at all when there is no such device; the
handle after the scan is that device if its open succeeded and null
otherwise, so a failed open is not followed by another attempt. -/
theorem first_match_wins (c : Cmdline) (w : World) :
    ((main c w).trace.filter Event.isOpen).length ≤ 1 ∧
    ∀ a list, parseArgs c = some a → w.init_ret = 0 →
      w.device_list = DeviceList.devices list →
      (main c w).trace.filter Event.isOpen =
        (((scanned list).findIdx? (fun d => found a.crit d != 0)).toList).map
          Event.libusb_open ∧
      opened a w =
        ((scanned list).find? (fun d => found a.crit d != 0)).filter
          (fun d => d.open_ret == 0) ∧
      ((∀ d ∈ scanned list, found a.crit d = 0) →
        (main c w).trace.filter Event.isOpen = [] ∧ opened a w = none) := by
  have key : ∀ a list, parseArgs c = some a → w.init_ret = 0 →
      w.device_list = DeviceList.devices list →
      (main c w).trace.filter Event.isOpen =
        (((scanned list).findIdx? (fun d => found a.crit d != 0)).toList).map
          Event.libusb_open := by
    intro a list hp h0 hl
    rw [main_of_parseArgs c w a hp]
    cases ho : opened a w with
    | none =>
      rw [run_not_opened a w list h0 hl ho]
      simp [scanLoop_opens, Event.isOpen]
    | some d =>
      rw [run_opened a w list d h0 hl ho]
      simp [scanLoop_opens, Event.isOpen, session_filter_isOpen, teardown_filter_isOpen]
  refine ⟨?_, ?_⟩
  · cases hp : parseArgs c with
    | none => simp [main_of_parseArgs_none c w hp, Event.isOpen]
    | some a =>
      by_cases h0 : w.init_ret = 0
      · cases hl : w.device_list with
        | devices list =>
          rw [key a list hp h0 hl]
          cases (List.findIdx? (fun d => found a.crit d != 0) (scanned list)) <;> simp
        | error code =>
          rw [main_of_parseArgs c w a hp]
          by_cases hc : code = libusb_error.LIBUSB_ERROR_NO_MEM
          · subst hc; simp [run_no_mem a w h0 hl, Event.isOpen]
          · simp [run_list_error a w code h0 hl hc, Event.isOpen]
      · rw [main_of_parseArgs c w a hp]
        simp [run_init_failed a w h0, Event.isOpen]
  · intro a list hp h0 hl
    have hh : opened a w =
        ((scanned list).find? (fun d => found a.crit d != 0)).filter
          (fun d => d.open_ret == 0) := by
      rw [opened_devices a w list hl, scanLoop_handle]
    refine ⟨key a list hp h0 hl, hh, ?_⟩
    intro hnone
    have hf : (scanned list).find? (fun d => found a.crit d != 0) = none := by
      rw [List.find?_eq_none]
      intro d hd
      simp [hnone d hd]
    have hi : (scanned list).findIdx? (fun d => found a.crit d != 0) = none := by
      rw [List.findIdx?_eq_none_iff]
      intro d hd
      simp [hnone d hd]
    rw [key a list hp h0 hl, hh, hf, hi]
    simp [Option.filter]

/-- Witness of C2 on a bus with a mouse, two hubs and an unreadable device:
the only open is that of the first hub, at index 1. -/
theorem first_match_wins_witness :
    parseArgs sampleCmd = some sampleArgs ∧ busWorld.init_ret = 0 ∧
    busWorld.device_list = DeviceList.devices busList ∧
    (main sampleCmd busWorld).trace.filter Event.isOpen = [Event.libusb_open 1] ∧
    opened sampleArgs busWorld = some sampleHub ∧
    ((main sampleCmd busWorld).trace.filter Event.isOpen).length ≤ 1 :=
  ⟨by decide, by decide, rfl,
    ((first_match_wins sampleCmd busWorld).2 sampleArgs busList (by decide) (by decide)
      rfl).1.trans (by decide),
    ((first_match_wins sampleCmd busWorld).2 sampleArgs busList (by decide) (by decide)
      rfl).2.1.trans (by decide),
    (first_match_wins sampleCmd busWorld).1⟩

/-! ## Port range and capability checks -/

/-- C3: once the hub descriptor has been read in full, the port check passes
exactly when `1 <= port <= bNbrPorts`; port 0 and port `bNbrPorts + 1` fail;
on failure the run prints "invalid port number" and continues at `fn_exit`
(close the handle, release the context, return 0). -/
theorem port_range_validation (c : Cmdline) (w : World) (a : Args) (d : Device)
    (hp : parseArgs c = some a) (h0 : w.init_ret = 0) (ho : opened a w = some d)
    (hcfg : d.config_ret = 0) (hif : d.bNumInterfaces = 1)
    (hread : LIBUSB_DT_HUB_NONVAR_SIZE ≤ d.hub_desc_ret) :
    (port_invalid a.port d.hub_desc = false ↔
      1 ≤ a.port ∧ a.port ≤ d.hub_desc.bNbrPorts) ∧
    (Event.fprintf_stderr "invalid port number\n" ∈ (main c w).trace ↔
      ¬ (1 ≤ a.port ∧ a.port ≤ d.hub_desc.bNbrPorts)) ∧
    (a.port = 0 ∨ a.port = d.hub_desc.bNbrPorts + 1 →
      Event.fprintf_stderr "invalid port number\n" ∈ (main c w).trace) ∧
    (¬ (1 ≤ a.port ∧ a.port ≤ d.hub_desc.bNbrPorts) →
      (session a d).2 = Label.fn_exit ∧ (main c w).status = 0 ∧
      ∃ pre, (main c w).trace = pre ++ [Event.fprintf_stderr "invalid port number\n",
        Event.libusb_close, Event.libusb_exit]) := by
  obtain ⟨list, hl⟩ := opened_is_devices a w d ho
  have hread' : ¬ d.hub_desc_ret < LIBUSB_DT_HUB_NONVAR_SIZE := by omega
  have hscan : Event.fprintf_stderr "invalid port number\n" ∉ (scanLoop a.crit list 0).1 :=
    scanLoop_not_mem _ _ _ _ (by decide)
  have hiff : (Event.fprintf_stderr "invalid port number\n" ∈ (main c w).trace ↔
      ¬ (1 ≤ a.port ∧ a.port ≤ d.hub_desc.bNbrPorts)) := by
    rw [← port_invalid_iff, main_of_parseArgs c w a hp, run_opened a w list d h0 hl ho]
    by_cases hv : port_invalid a.port d.hub_desc = true
    · simp [session, hcfg, hif, hread', hv, hscan]
    · by_cases hs : power_switching d.hub_desc = true <;>
      by_cases hpw : d.power_ret < 0 <;>
        simp [session, hcfg, hif, hread', hv, hs, hpw, hscan, teardown, getHubDescriptor,
          portPower]
  refine ⟨port_invalid_iff _ _, hiff, ?_, ?_⟩
  · intro h
    rw [hiff]
    omega
  · intro h
    have hv : port_invalid a.port d.hub_desc = true := by
      rw [← port_invalid_iff] at h
      simpa using h
    rw [main_of_parseArgs c w a hp, run_opened a w list d h0 hl ho]
    refine ⟨by simp [session, hcfg, hif, hread', hv],
      by simp [session, hcfg, hif, hread', hv, teardown], ?_⟩
    refine ⟨[Event.libusb_init, Event.libusb_get_device_list] ++ (scanLoop a.crit list 0).1
      ++ [Event.libusb_free_device_list, Event.libusb_get_device,
        Event.libusb_get_active_config_descriptor, Event.libusb_free_config_descriptor,
        getHubDescriptor], ?_⟩
    simp [session, hcfg, hif, hread', hv, teardown]

/-- Witness of C3: port 5 on the four-port sample hub. -/
theorem port_range_validation_witness :
    parseArgs cmd5 = some args5 ∧ opened args5 sampleWorld = some sampleHub ∧
    args5.port = sampleHub.hub_desc.bNbrPorts + 1 ∧
    Event.fprintf_stderr "invalid port number\n" ∈ (main cmd5 sampleWorld).trace ∧
    (main cmd5 sampleWorld).status = 0 :=
  ⟨by decide, by decide, by decide,
    (port_range_validation cmd5 sampleWorld args5 sampleHub (by decide) (by decide)
      (by decide) (by decide) (by decide) (by decide)).2.2.1 (Or.inr (by decide)),
    ((port_range_validation cmd5 sampleWorld args5 sampleHub (by decide) (by decide)
      (by decide) (by decide) (by decide) (by decide)).2.2.2 (by decide)).2.1⟩

/-- C4: power switching is accepted exactly when the two low bits of
`wHubCharacteristics` are 0 or 1.  In a run that reaches the check the power
transfer is issued exactly in that case; when the two bits are 2 or 3 the
run prints "power switching not supported", issues no power transfer and
continues at `fn_exit` (close, release, return 0). -/
theorem capability_check (c : Cmdline) (w : World) (a : Args) (d : Device)
    (hp : parseArgs c = some a) (h0 : w.init_ret = 0) (ho : opened a w = some d)
    (hcfg : d.config_ret = 0) (hif : d.bNumInterfaces = 1)
    (hread : LIBUSB_DT_HUB_NONVAR_SIZE ≤ d.hub_desc_ret)
    (hport : 1 ≤ a.port ∧ a.port ≤ d.hub_desc.bNbrPorts) :
    (power_switching d.hub_desc = true ↔
      (d.hub_desc.wHubCharacteristics &&& 0x3 = 0 ∨
        d.hub_desc.wHubCharacteristics &&& 0x3 = 1)) ∧
    ((main c w).trace.filter Event.isPortTransfer = [portPower a] ↔
      (d.hub_desc.wHubCharacteristics &&& 0x3 = 0 ∨
        d.hub_desc.wHubCharacteristics &&& 0x3 = 1)) ∧
    ((d.hub_desc.wHubCharacteristics &&& 0x3 = 2 ∨
        d.hub_desc.wHubCharacteristics &&& 0x3 = 3) →
      (session a d).2 = Label.fn_exit ∧ (main c w).status = 0 ∧
      (main c w).trace.filter Event.isPortTransfer = [] ∧
      ∃ pre, (main c w).trace = pre ++
        [Event.fprintf_stderr "power switching not supported\n",
          Event.libusb_close, Event.libusb_exit]) := by
  obtain ⟨list, hl⟩ := opened_is_devices a w d ho
  have hread' : ¬ d.hub_desc_ret < LIBUSB_DT_HUB_NONVAR_SIZE := by omega
  have hv : port_invalid a.port d.hub_desc = false := (port_invalid_iff _ _).2 hport
  refine ⟨power_switching_iff _, ?_, ?_⟩
  · rw [← power_switching_iff, main_of_parseArgs c w a hp, run_opened a w list d h0 hl ho]
    by_cases hs : power_switching d.hub_desc = true
    · by_cases hpw : d.power_ret < 0 <;>
        simp [session, hcfg, hif, hread', hv, hs, hpw, teardown, List.filter_cons,
          scanLoop_filter_isPortTransfer, getHubDescriptor_eq, portPower_eq,
          USB_RT_PORT_eq, Event.isPortTransfer]
    · simp [session, hcfg, hif, hread', hv, hs, teardown, List.filter_cons,
          scanLoop_filter_isPortTransfer, getHubDescriptor_eq, portPower_eq,
          USB_RT_PORT_eq, Event.isPortTransfer]
  · intro h
    have hs : ¬ power_switching d.hub_desc = true := by
      rw [power_switching_iff]
      omega
    rw [main_of_parseArgs c w a hp, run_opened a w list d h0 hl ho]
    refine ⟨by simp [session, hcfg, hif, hread', hv, hs],
      by simp [session, hcfg, hif, hread', hv, hs, teardown], ?_, ?_⟩
    · simp [session, hcfg, hif, hread', hv, hs, teardown, List.filter_cons,
          scanLoop_filter_isPortTransfer, getHubDescriptor_eq, portPower_eq,
          USB_RT_PORT_eq, Event.isPortTransfer]
    · refine ⟨[Event.libusb_init, Event.libusb_get_device_list] ++ (scanLoop a.crit list 0).1
        ++ [Event.libusb_free_device_list, Event.libusb_get_device,
          Event.libusb_get_active_config_descriptor, Event.libusb_free_config_descriptor,
          getHubDescriptor], ?_⟩
      simp [session, hcfg, hif, hread', hv, hs, teardown]

/-- Witness of C4: port 3 on a hub whose mode bits are 2. -/
theorem capability_check_witness :
    parseArgs sampleCmd = some sampleArgs ∧
    opened sampleArgs (worldOf fixedHub) = some fixedHub ∧
    fixedHub.hub_desc.wHubCharacteristics &&& 0x3 = 2 ∧
    (main sampleCmd (worldOf fixedHub)).status = 0 ∧
    (main sampleCmd (worldOf fixedHub)).trace.filter Event.isPortTransfer = [] :=
  ⟨by decide, by decide, by decide,
    ((capability_check sampleCmd (worldOf fixedHub) sampleArgs fixedHub (by decide)
      (by decide) (by decide) (by decide) (by decide) (by decide) (by decide)).2.2
      (Or.inl (by decide))).2.1,
    ((capability_check sampleCmd (worldOf fixedHub) sampleArgs fixedHub (by decide)
      (by decide) (by decide) (by decide) (by decide) (by decide) (by decide)).2.2
      (Or.inl (by decide))).2.2.1⟩

/-! ## Wire protocol -/

/-- C6: in a run with well-formed arguments and the USB context acquired,
each of these ends with status 0 and without a port power transfer: no
device of the list matches; the matched device cannot be opened; the active
configuration does not have exactly one interface; the port is outside
`[1, bNbrPorts]`; the power switching mode is not 0 or 1.  In particular
port 99 on a hub with 4 ports. -/
theorem graceful_conditions (c : Cmdline) (w : World) (a : Args)
    (hp : parseArgs c = some a) (h0 : w.init_ret = 0) :
    (∀ list, w.device_list = DeviceList.devices list →
      (∀ d ∈ scanned list, found a.crit d = 0) → Graceful (main c w)) ∧
    (∀ list d, w.device_list = DeviceList.devices list →
      (scanned list).find? (fun d => found a.crit d != 0) = some d →
      d.open_ret ≠ 0 → Graceful (main c w)) ∧
    (∀ d, opened a w = some d → d.config_ret = 0 → d.bNumInterfaces ≠ 1 →
      Graceful (main c w)) ∧
    (∀ d, opened a w = some d → d.config_ret = 0 → d.bNumInterfaces = 1 →
      LIBUSB_DT_HUB_NONVAR_SIZE ≤ d.hub_desc_ret →
      ¬ (1 ≤ a.port ∧ a.port ≤ d.hub_desc.bNbrPorts) → Graceful (main c w)) ∧
    (∀ d, opened a w = some d → d.config_ret = 0 → d.bNumInterfaces = 1 →
      LIBUSB_DT_HUB_NONVAR_SIZE ≤ d.hub_desc_ret →
      1 ≤ a.port ∧ a.port ≤ d.hub_desc.bNbrPorts →
      ¬ (d.hub_desc.wHubCharacteristics &&& 0x3 = 0 ∨
        d.hub_desc.wHubCharacteristics &&& 0x3 = 1) → Graceful (main c w)) ∧
    (∀ d, opened a w = some d → d.config_ret = 0 → d.bNumInterfaces = 1 →
      LIBUSB_DT_HUB_NONVAR_SIZE ≤ d.hub_desc_ret →
      a.port = 99 → d.hub_desc.bNbrPorts = 4 → Graceful (main c w)) := by
  rw [main_of_parseArgs c w a hp]
  refine ⟨?_, ?_, ?_, ?_, ?_, ?_⟩
  · intro list hl hnone
    apply graceful_not_opened a w list h0 hl
    rw [opened_devices a w list hl, scanLoop_handle]
    have hf : (scanned list).find? (fun d => found a.crit d != 0) = none := by
      rw [List.find?_eq_none]
      intro d hd
      simp [hnone d hd]
    rw [hf]
    rfl
  · intro list d hl hf hopen
    apply graceful_not_opened a w list h0 hl
    rw [opened_devices a w list hl, scanLoop_handle, hf]
    simp [Option.filter, hopen]
  · intro d ho hcfg hif
    exact graceful_interfaces a w d h0 ho hcfg hif
  · intro d ho hcfg hif hread hport
    exact graceful_port a w d h0 ho hcfg hif hread hport
  · intro d ho hcfg hif hread hport hs
    exact graceful_unsupported a w d h0 ho hcfg hif hread hport
      (by rw [power_switching_iff]; exact hs)
  · intro d ho hcfg hif hread hport hn
    exact graceful_port a w d h0 ho hcfg hif hread (by omega)

/-- Witness of C6, one world for each condition: an empty bus, a hub that
cannot be opened, a hub with two interfaces, port 99 on a four-port hub, a
hub without power switching. -/
theorem graceful_conditions_witness :
    Graceful (main sampleCmd ⟨0, DeviceList.devices []⟩) ∧
    Graceful (main sampleCmd (worldOf lockedHub)) ∧
    Graceful (main sampleCmd (worldOf compositeHub)) ∧
    Graceful (main cmd99 sampleWorld) ∧
    Graceful (main sampleCmd (worldOf fixedHub)) ∧
    (args99.port = 99 ∧ sampleHub.hub_desc.bNbrPorts = 4 ∧ Graceful (main cmd99 sampleWorld)) :=
  ⟨(graceful_conditions sampleCmd ⟨0, DeviceList.devices []⟩ sampleArgs (by decide)
      (by decide)).1 [] rfl (by decide),
    (graceful_conditions sampleCmd (worldOf lockedHub) sampleArgs (by decide)
      (by decide)).2.1 [lockedHub] lockedHub rfl (by decide) (by decide),
    (graceful_conditions sampleCmd (worldOf compositeHub) sampleArgs (by decide)
      (by decide)).2.2.1 compositeHub (by decide) (by decide) (by decide),
    (graceful_conditions cmd99 sampleWorld args99 (by decide)
      (by decide)).2.2.2.1 sampleHub (by decide) (by decide) (by decide) (by decide)
      (by decide),
    (graceful_conditions sampleCmd (worldOf fixedHub) sampleArgs (by decide)
      (by decide)).2.2.2.2.1 fixedHub (by decide) (by decide) (by decide) (by decide)
      (by decide) (by decide),
    by decide, by decide,
    (graceful_conditions cmd99 sampleWorld args99 (by decide)
      (by decide)).2.2.2.2.2 sampleHub (by decide) (by decide) (by decide) (by decide)
      (by decide) (by decide)⟩

/-- C7: when `libusb_init` fails, `main` prints "libusb init failed" and
returns -1 with `libusb_init` as its only libusb call; when the hub
descriptor transfer returns less than 7, `main` returns 2 and issues no
port power transfer; when the port power transfer returns a negative value,
`main` returns 2.  The status of `main` is always one of -1, 0, 1, 2, and it
is -1 only when the arguments were accepted and `libusb_init` failed. -/
theorem failure_statuses (c : Cmdline) (w : World) :
    (∀ a, parseArgs c = some a → w.init_ret ≠ 0 →
      main c w = ⟨[Event.libusb_init, Event.fprintf_stderr "libusb init failed\n"], -1⟩ ∧
      (main c w).trace.filter Event.isUsb = [Event.libusb_init]) ∧
    (∀ a d, parseArgs c = some a → opened a w = some d →
      getHubDescriptor ∈ (main c w).trace →
      d.hub_desc_ret < LIBUSB_DT_HUB_NONVAR_SIZE →
      (main c w).status = 2 ∧ (main c w).trace.filter Event.isPortTransfer = []) ∧
    (∀ a d, parseArgs c = some a → opened a w = some d →
      portPower a ∈ (main c w).trace → d.power_ret < 0 → (main c w).status = 2) ∧
    ((main c w).status = -1 ∨ (main c w).status = 0 ∨ (main c w).status = 1 ∨
      (main c w).status = 2) ∧
    ((main c w).status = -1 ↔ ∃ a, parseArgs c = some a ∧ w.init_ret ≠ 0) := by
  have hstat : ∀ a, parseArgs c = some a → w.init_ret = 0 →
      (main c w).status = 0 ∨ (main c w).status = 2 := by
    intro a hp h0
    rw [main_of_parseArgs c w a hp]
    cases hl : w.device_list with
    | error code =>
      by_cases hc : code = libusb_error.LIBUSB_ERROR_NO_MEM
      · subst hc; simp [run_no_mem a w h0 hl]
      · simp [run_list_error a w code h0 hl hc]
    | devices list =>
      cases ho : opened a w with
      | none => simp [run_not_opened a w list h0 hl ho]
      | some d =>
        rw [run_opened a w list d h0 hl ho]
        cases (session a d).2 <;> simp [teardown]
  refine ⟨?_, ?_, ?_, ?_, ?_⟩
  · intro a hp h0
    rw [main_of_parseArgs c w a hp, run_init_failed a w h0]
    exact ⟨rfl, by decide⟩
  · intro a d hp ho hmem hlt
    obtain ⟨list, hl⟩ := opened_is_devices a w d ho
    rw [main_of_parseArgs c w a hp] at hmem ⊢
    by_cases h0 : w.init_ret = 0
    · rw [run_opened a w list d h0 hl ho] at hmem ⊢
      have hscan : getHubDescriptor ∉ (scanLoop a.crit list 0).1 :=
        scanLoop_not_mem _ _ _ _ (by decide)
      by_cases hcfg : d.config_ret = 0
      · by_cases hif : d.bNumInterfaces = 1
        · exact ⟨by simp [session, hcfg, hif, hlt, teardown],
            by simp [session, hcfg, hif, hlt, teardown, scanLoop_filter_isPortTransfer,
              getHubDescriptor_eq, USB_RT_PORT_eq, Event.isPortTransfer]⟩
        · exfalso
          simp [session, hcfg, hif, teardown, hscan] at hmem
          revert hmem
          decide
      · exfalso
        simp [session, hcfg, teardown, hscan] at hmem
        revert hmem
        decide
    · exfalso
      rw [run_init_failed a w h0] at hmem
      revert hmem
      decide
  · intro a d hp ho hmem hlt
    obtain ⟨list, hl⟩ := opened_is_devices a w d ho
    rw [main_of_parseArgs c w a hp] at hmem ⊢
    by_cases h0 : w.init_ret = 0
    · rw [run_opened a w list d h0 hl ho] at hmem ⊢
      have hscan : portPower a ∉ (scanLoop a.crit list 0).1 :=
        scanLoop_not_mem _ _ _ _ rfl
      rw [portPower_eq] at hscan
      by_cases hcfg : d.config_ret = 0 <;> by_cases hif : d.bNumInterfaces = 1 <;>
      by_cases hrd : d.hub_desc_ret < LIBUSB_DT_HUB_NONVAR_SIZE <;>
      by_cases hv : port_invalid a.port d.hub_desc = true <;>
      by_cases hs : power_switching d.hub_desc = true <;>
        simp [session, hcfg, hif, hrd, hv, hs, hlt, teardown, hscan, getHubDescriptor_eq,
          portPower_eq] at hmem ⊢
    · exfalso
      rw [run_init_failed a w h0] at hmem
      simp [portPower] at hmem
  · cases hp : parseArgs c with
    | none => simp [main_of_parseArgs_none c w hp]
    | some a =>
      by_cases h0 : w.init_ret = 0
      · rcases hstat a hp h0 with h | h
        · exact Or.inr (Or.inl h)
        · exact Or.inr (Or.inr (Or.inr h))
      · rw [main_of_parseArgs c w a hp, run_init_failed a w h0]
        exact Or.inl rfl
  · cases hp : parseArgs c with
    | none => simp [main_of_parseArgs_none c w hp]
    | some a =>
      by_cases h0 : w.init_ret = 0
      · rcases hstat a hp h0 with h | h <;> simp [h, h0]
      · rw [main_of_parseArgs c w a hp, run_init_failed a w h0]
        simp [h0]

/-- Witness of C7: a world where `libusb_init` fails, a hub that answers the
descriptor read with 3 bytes, a hub that refuses the power transfer. -/
theorem failure_statuses_witness :
    (main sampleCmd ⟨-99, DeviceList.devices [sampleHub]⟩).status = -1 ∧
    (getHubDescriptor ∈ (main sampleCmd (worldOf shortHub)).trace ∧
      (main sampleCmd (worldOf shortHub)).status = 2 ∧
      (main sampleCmd (worldOf shortHub)).trace.filter Event.isPortTransfer = []) ∧
    (portPower sampleArgs ∈ (main sampleCmd (worldOf stalledHub)).trace ∧
      (main sampleCmd (worldOf stalledHub)).status = 2) :=
  ⟨congrArg Outcome.status
      (((failure_statuses sampleCmd ⟨-99, DeviceList.devices [sampleHub]⟩).1 sampleArgs
        (by decide) (by decide)).1),
    ⟨by decide,
      (failure_statuses sampleCmd (worldOf shortHub)).2.1 sampleArgs shortHub (by decide)
        (by decide) (by decide) (by decide)⟩,
    ⟨by decide,
      (failure_statuses sampleCmd (worldOf stalledHub)).2.2.1 sampleArgs stalledHub (by decide)
        (by decide) (by decide) (by decide)⟩⟩

/-! ## Release of the resources -/

/-- C8: in every run in which the USB context is acquired, `libusb_exit` is
called exactly once and it is the last thing the run does; if the scan left
an open handle, `libusb_close` is called exactly once, immediately before
`libusb_exit`; if it left none, `libusb_close` is not called. -/
theorem resource_release (c : Cmdline) (w : World) (a : Args)
    (hp : parseArgs c = some a) (h0 : w.init_ret = 0) :
    (main c w).trace.count Event.libusb_exit = 1 ∧
    (main c w).trace.getLast? = some Event.libusb_exit ∧
    (∀ d, opened a w = some d →
      (main c w).trace.count Event.libusb_close = 1 ∧
      ∃ pre, (main c w).trace = pre ++ [Event.libusb_close, Event.libusb_exit]) ∧
    (opened a w = none → (main c w).trace.count Event.libusb_close = 0) := by
  rw [main_of_parseArgs c w a hp]
  cases hl : w.device_list with
  | error code =>
    have hn := opened_error a w code hl
    by_cases hc : code = libusb_error.LIBUSB_ERROR_NO_MEM
    · subst hc
      rw [run_no_mem a w h0 hl, hn]
      simp
    · rw [run_list_error a w code h0 hl hc, hn]
      simp
  | devices list =>
    have hc1 := scanLoop_count a.crit list 0 Event.libusb_close rfl
    have hc2 := scanLoop_count a.crit list 0 Event.libusb_exit rfl
    cases ho : opened a w with
    | none =>
      rw [run_not_opened a w list h0 hl ho]
      refine ⟨by simp [List.count_append, hc2], ?_, by simp, by simp [List.count_append, hc1]⟩
      rw [show ([Event.libusb_init, Event.libusb_get_device_list] ++ (scanLoop a.crit list 0).1
          ++ [Event.libusb_free_device_list, Event.libusb_exit]) =
        ([Event.libusb_init, Event.libusb_get_device_list] ++ (scanLoop a.crit list 0).1
          ++ [Event.libusb_free_device_list]) ++ [Event.libusb_exit] by simp]
      exact List.getLast?_concat _
    | some d =>
      rw [run_opened a w list d h0 hl ho]
      obtain ⟨pre, hpre, hp1, hp2⟩ := teardown_some d (session a d).2
      obtain ⟨hs1, hs2⟩ := session_count a d
      rw [hpre]
      refine ⟨by simp [List.count_append, hc2, hs2, hp2], ?_, ?_, by simp⟩
      · rw [show ([Event.libusb_init, Event.libusb_get_device_list] ++
            (scanLoop a.crit list 0).1 ++ [Event.libusb_free_device_list] ++ (session a d).1 ++
            (pre ++ [Event.libusb_close, Event.libusb_exit])) =
          ([Event.libusb_init, Event.libusb_get_device_list] ++
            (scanLoop a.crit list 0).1 ++ [Event.libusb_free_device_list] ++ (session a d).1 ++
            pre ++ [Event.libusb_close]) ++ [Event.libusb_exit] by simp]
        exact List.getLast?_concat _
      · intro d2 _
        refine ⟨by simp [List.count_append, hc1, hs1, hp1], ?_⟩
        exact ⟨[Event.libusb_init, Event.libusb_get_device_list] ++
            (scanLoop a.crit list 0).1 ++ [Event.libusb_free_device_list] ++ (session a d).1 ++
            pre, by simp⟩

/-- Witness of C8: a run that opens the sample hub and a run on an empty
bus. -/
theorem resource_release_witness :
    (opened sampleArgs sampleWorld = some sampleHub ∧
      (main sampleCmd sampleWorld).trace.count Event.libusb_exit = 1 ∧
      (main sampleCmd sampleWorld).trace.count Event.libusb_close = 1) ∧
    (opened sampleArgs ⟨0, DeviceList.devices []⟩ = none ∧
      (main sampleCmd ⟨0, DeviceList.devices []⟩).trace.getLast? = some Event.libusb_exit ∧
      (main sampleCmd ⟨0, DeviceList.devices []⟩).trace.count Event.libusb_close = 0) :=
  ⟨⟨by decide,
      (resource_release sampleCmd sampleWorld sampleArgs (by decide) (by decide)).1,
      ((resource_release sampleCmd sampleWorld sampleArgs (by decide) (by decide)).2.2.1
        sampleHub (by decide)).1⟩,
    ⟨by decide,
      (resource_release sampleCmd ⟨0, DeviceList.devices []⟩ sampleArgs (by decide)
        (by decide)).2.1,
      (resource_release sampleCmd ⟨0, DeviceList.devices []⟩ sampleArgs (by decide)
        (by decide)).2.2.2 (by decide)⟩⟩

/-! ## The silent exit -/

/-- C9 (what the code does): with no device on the bus, `hub-power 3 1`
lists the devices, frees the list, releases the context and returns 0;
nothing is written to the error stream.  The neighbouring path, a matching
hub that cannot be opened, reaches the same exit but prints its
diagnostic. -/
theorem no_device_is_silent :
    main ⟨[], ["3", "1"]⟩ ⟨0, DeviceList.devices []⟩ =
      ⟨[Event.libusb_init, Event.libusb_get_device_list, Event.libusb_free_device_list,
        Event.libusb_exit], 0⟩ ∧
    (main ⟨[], ["3", "1"]⟩ ⟨0, DeviceList.devices []⟩).trace.filter Event.isStderr = [] ∧
    (main ⟨[], ["3", "1"]⟩ ⟨0, DeviceList.devices [lockedHub]⟩).trace.filter Event.isStderr =
      [Event.fprintf_stderr "could not open device\n"] := by
  decide

/-! ## Malformed arguments -/

end HubPower
